import Mathlib

/-!
Verification development for the `smart_announcements` home-automation
integration.  The definitions below are a shallow embedding of the Python
sources (`announcer.py`, `room_tracker.py`, `const.py`, `config_flow.py`):
configuration dictionaries become structures with `Option` fields (a `none`
field models both an absent key and a stored `None`), truthiness tests on
strings are made explicit, and the side-effecting dispatch pipeline is
modelled as a function returning the list of capability calls and events it
issues together with a flag saying whether it re-raised an exception.
-/

namespace SmartAnnouncements

/-- Python truthiness of an optional string: `None` and the empty string are
falsy; a non-empty string is truthy (returned unchanged). -/
def strTruthy : Option String → Option String
  | none => none
  | some s => if s = "" then none else some s

/-- Lowercase a string character by character, as Python `str.lower` does for
the ASCII identifiers used by this integration. -/
def pyLower (s : String) : String := String.mk (s.data.map Char.toLower)

/-- Characters stripped by Python `str.strip()` with no argument. -/
def isPyWhitespace (c : Char) : Bool :=
  c == ' ' || c == '\t' || c == '\n' || c == '\r' || c == '\x0b' || c == '\x0c'

/-- Python `str.strip()`: drop leading and trailing whitespace. -/
def pyStrip (s : String) : String :=
  String.mk (((s.data.dropWhile isPyWhitespace).reverse.dropWhile isPyWhitespace).reverse)

/-- Whether the second list is a prefix of the first, by element equality. -/
def startsWithList : List Char → List Char → Bool
  | _, [] => true
  | [], _ :: _ => false
  | a :: as, b :: bs => a == b && startsWithList as bs

/-- Whether `needle` occurs as a contiguous sublist of the argument. -/
def hasSubstr (needle : List Char) : List Char → Bool
  | [] => needle.isEmpty
  | c :: cs => startsWithList (c :: cs) needle || hasSubstr needle cs

/-- Python `needle in hay` for strings. -/
def pyContains (hay needle : String) : Bool := hasSubstr needle.data hay.data

/-- Replace every leftmost, non-overlapping occurrence of `pattern` by
`repl`, scanning left to right.  `fuel` bounds the recursion; it is
instantiated with the length of the scanned list, which suffices because each
step consumes at least one character. -/
def replaceChars (pattern repl : List Char) : Nat → List Char → List Char
  | 0, l => l
  | _ + 1, [] => []
  | fuel + 1, c :: cs =>
    if startsWithList (c :: cs) pattern then
      repl ++ replaceChars pattern repl fuel ((c :: cs).drop pattern.length)
    else
      c :: replaceChars pattern repl fuel cs

/-- Python `str.replace` for a non-empty pattern (the sources never replace
an empty pattern, so that case is left as the identity). -/
def pyReplace (s pattern repl : String) : String :=
  if pattern = "" then s
  else String.mk (replaceChars pattern.data repl.data s.data.length s.data)

/-- Python `str.split(",")`. -/
def splitCommaAux : List Char → List Char → List (List Char)
  | [], cur => [cur.reverse]
  | c :: cs, cur =>
    if c == ',' then cur.reverse :: splitCommaAux cs []
    else splitCommaAux cs (c :: cur)

/-- Python `str.split(",")` on a string. -/
def pySplitComma (s : String) : List String :=
  (splitCommaAux s.data []).map String.mk

/-- Python `str.title()` over the ASCII names this integration handles: a
letter that follows a non-letter is uppercased, every other letter is
lowercased. -/
def pyTitleAux : List Char → Bool → List Char
  | [], _ => []
  | c :: cs, prevAlpha =>
    if c.isAlpha then
      (if prevAlpha then c.toLower else c.toUpper) :: pyTitleAux cs true
    else
      c :: pyTitleAux cs false

/-- Python `str.title()`. -/
def pyTitle (s : String) : String := String.mk (pyTitleAux s.data false)

/-- A live entity state as read from the host: the raw state string plus the
attribute dictionary. -/
structure HAState where
  state : String
  attributes : List (String × String)
deriving DecidableEq, Repr

/-- Python `state.attributes.get(key)`. -/
def attrGet (st : HAState) (key : String) : Option String :=
  (st.attributes.find? (fun p => p.1 == key)).map (·.2)

/-- An entry of the host's area registry. -/
structure Area where
  id : String
  name : String
deriving DecidableEq, Repr

/-- The dictionary comprehension over the area registry in
`_get_area_from_entity`: keys are lowercased area names, and a later area
with the same lowercased name overwrites an earlier one, so lookup takes the
last match. -/
def areaLookup (areas : List Area) (key : String) : Option String :=
  (areas.reverse.find? (fun a => pyLower a.name == key)).map (·.id)

/-- A per-person configuration record (one element of the `people` list of
the config entry).  A `none` field models an absent key or a stored `None`. -/
structure PersonConfig where
  person_entity : Option String := none
  room_tracking_entity : Option String := none
  conversation_entity : Option String := none
  language : Option String := none
  tts_platform : Option String := none
  tts_voice : Option String := none
  enhance_with_ai : Option Bool := none
  translate_announcement : Option Bool := none
deriving DecidableEq, Repr

/-- A per-room configuration record (one element of the `rooms` list). -/
structure RoomConfig where
  area_id : Option String := none
  room_name : Option String := none
  media_player : Option String := none
  presence_sensors : List String := []
deriving DecidableEq, Repr

/-- The `group` sub-dictionary of the config entry. -/
structure GroupConfig where
  group_conversation_entity : Option String := none
  group_language : Option String := none
  group_tts_platform : Option String := none
  group_tts_voice : Option String := none
  group_enhance_with_ai : Option Bool := none
  group_translate_announcement : Option Bool := none
  group_addressee : Option String := none
deriving DecidableEq, Repr

/-- The config-entry data consulted by the announcer and room tracker. -/
structure Config where
  people : List PersonConfig := []
  rooms : List RoomConfig := []
  group : GroupConfig := {}
  home_away_tracking : Option Bool := none
  room_tracking : Option Bool := none
  presence_verification : Option Bool := none
  pre_announce_enabled : Option Bool := none
  pre_announce_url : Option String := none
  pre_announce_delay : Option Nat := none
  log_to_activity : Option Bool := none
  prompt_translate : Option String := none
  prompt_enhance : Option String := none
  prompt_both : Option String := none
deriving Repr

/-- The per-entry enabled/mute registry stored in `hass.data` by the switch
platform: explicit enabled flags keyed by person entity and by room area id.
The people keys are `Option String` because the stored key is whatever
`person_config.get("person_entity")` returned. -/
structure EnabledRegistry where
  people : List (Option String × Bool) := []
  rooms : List (String × Bool) := []
deriving Repr

/-- Outcome of the `conversation.process` capability call made by
`_enhance_message`: the call either raises, or returns a value.  For a
returned value, `truthyWithResponse` models the Python test
`response and "response" in response`, and `speechPlainSpeech` models the
nested `response.speech.plain.speech` field (a `none` means some level of
the nesting was missing, so the defaulting chain falls back to the input
message). -/
inductive AIOutcome where
  | raises
  | returns (truthyWithResponse : Bool) (speechPlainSpeech : Option String)
deriving DecidableEq, Repr

/-- The host environment an announcement runs against: live entity states,
the area registry, the enabled registry (a `none` models `DOMAIN` missing
from `hass.data`), the AI oracle (outcome of `conversation.process` for a
given prompt), and the TTS oracle (whether `tts.speak` raises for a given
media player). -/
structure Env where
  states : List (String × HAState) := []
  areas : List Area := []
  registry : Option EnabledRegistry := none
  ai : String → AIOutcome := fun _ => AIOutcome.raises
  ttsFails : String → Bool := fun _ => false

/-- Python `hass.states.get(entity_id)`. -/
def statesGet (env : Env) (entityId : String) : Option HAState :=
  (env.states.find? (fun p => p.1 == entityId)).map (·.2)

/-- The function `get_person_friendly_name` from `config_flow.py`: the
state's truthy `friendly_name` attribute, else the entity id with the
`person.` prefix removed, underscores replaced by spaces, and title-cased. -/
def get_person_friendly_name (env : Env) (personEntity : String) : String :=
  let fallback := pyTitle (pyReplace (pyReplace personEntity "person." "") "_" " ")
  match statesGet env personEntity with
  | some st =>
    match attrGet st "friendly_name" with
    | some fn => if fn = "" then fallback else fn
    | none => fallback
  | none => fallback

/-- The announcer's `_get_person_config`: scan the configured people and
return the first record whose entity id, friendly name, entity-name suffix,
or suffix with underscores replaced by spaces matches the given name
(case-insensitively, except for the raw entity-id comparison). -/
def getPersonConfigByName (env : Env) (cfg : Config) (personName : String) :
    Option PersonConfig :=
  cfg.people.find? (fun person =>
    let entityId := person.person_entity.getD ""
    let byEntityId := entityId ≠ "" && entityId == personName
    let byFriendly :=
      entityId ≠ "" &&
        (let friendly := get_person_friendly_name env entityId
         friendly ≠ "" && pyLower friendly == pyLower personName)
    let nameFromEntity := pyLower (pyReplace entityId "person." "")
    let byEntityName := nameFromEntity == pyLower personName
    let byUnderscores := pyReplace nameFromEntity "_" " " == pyLower personName
    byEntityId || byFriendly || byEntityName || byUnderscores)

/-- The room tracker's `_get_person_config`: the first configured person
whose `person_entity` equals the given entity id. -/
def getPersonConfigByEntity (cfg : Config) (personEntity : String) :
    Option PersonConfig :=
  cfg.people.find? (fun p => p.person_entity == some personEntity)

/-- The announcer's `_get_room_config`: the first configured room whose
`area_id` equals the given area id. -/
def getRoomConfig (cfg : Config) (areaId : String) : Option RoomConfig :=
  cfg.rooms.find? (fun r => r.area_id == some areaId)

/-- The announcer's `_is_room_enabled`: enabled by default; an explicit flag
in the registry overrides. -/
def isRoomEnabled (reg : Option EnabledRegistry) (areaId : String) : Bool :=
  match reg with
  | none => true
  | some r => ((r.rooms.find? (fun p => p.1 == areaId)).map (·.2)).getD true

/-- The announcer's `_is_person_enabled`: enabled by default; an explicit
flag in the registry overrides. -/
def isPersonEnabled (reg : Option EnabledRegistry) (personEntity : Option String) :
    Bool :=
  match reg with
  | none => true
  | some r => ((r.people.find? (fun p => p.1 == personEntity)).map (·.2)).getD true

/-- State values that `_get_area_from_entity` never interprets as an area
name. -/
def reservedStates : List String := ["home", "not_home", "unknown", "unavailable", "none"]

/-- One attribute step of `_get_area_from_entity`: read the attribute, and if
it is truthy look its lowercased value up in the area-name dictionary. -/
def attrAreaMatch (env : Env) (st : HAState) (key : String) : Option String :=
  match attrGet st key with
  | none => none
  | some v => if v = "" then none else areaLookup env.areas (pyLower v)

/-- The room tracker's `_get_area_from_entity`: method 1 takes the lowercased
raw state as an area name unless it is reserved, method 2 tries the `area`
attribute, method 3 the `room` attribute; otherwise the result is `none`. -/
def getAreaFromEntity (env : Env) (entityId : String) : Option String :=
  match statesGet env entityId with
  | none => none
  | some entityState =>
    let stateValue := pyLower entityState.state
    let byState :=
      if reservedStates.contains stateValue then none
      else areaLookup env.areas stateValue
    match byState with
    | some a => some a
    | none =>
      match attrAreaMatch env entityState "area" with
      | some a => some a
      | none => attrAreaMatch env entityState "room"

/-- The room tracker's `_verify_presence`: true when no room is configured
for the area, when the room has no presence sensors, or when at least one
configured sensor's state is `on`. -/
def verifyPresence (env : Env) (cfg : Config) (areaId : String) : Bool :=
  match cfg.rooms.find? (fun r => r.area_id == some areaId) with
  | none => true
  | some roomConfig =>
    if roomConfig.presence_sensors.isEmpty then true
    else
      roomConfig.presence_sensors.any (fun sensorId =>
        match statesGet env sensorId with
        | some st => st.state == "on"
        | none => false)

/-- The room tracker's `async_get_person_room`: resolve the person's config
and room-tracking entity, require the person entity's state to be `home`,
read the area from the tracking entity, and when the config's
presence-verification flag is set additionally require `verifyPresence`. -/
def asyncGetPersonRoom (env : Env) (cfg : Config) (personEntity : String) :
    Option String :=
  match getPersonConfigByEntity cfg personEntity with
  | none => none
  | some personConfig =>
    match strTruthy personConfig.room_tracking_entity with
    | none => none
    | some trackingEntity =>
      match statesGet env personEntity with
      | none => none
      | some personState =>
        if personState.state ≠ "home" then none
        else
          match getAreaFromEntity env trackingEntity with
          | none => none
          | some areaId =>
            if cfg.presence_verification.getD false then
              if verifyPresence env cfg areaId then some areaId else none
            else some areaId

/-- Calling `async_get_person_room` with the raw optional `person_entity` of
a config record, as `_resolve_targets` does: a missing entity makes the state
lookup fail, so the result is `none`. -/
def asyncGetPersonRoomOpt (env : Env) (cfg : Config) : Option String → Option String
  | some personEntity => asyncGetPersonRoom env cfg personEntity
  | none => none

/-- The room tracker's `async_get_rooms_with_presence`: area ids of
configured rooms that have a truthy area id, at least one presence sensor,
and some sensor reporting `on`.  The Python set is modelled as a list
deduplicated in insertion order; callers only test membership. -/
def asyncGetRoomsWithPresence (env : Env) (cfg : Config) : List String :=
  cfg.rooms.foldl (fun acc room =>
    match strTruthy room.area_id with
    | none => acc
    | some areaId =>
      if room.presence_sensors.isEmpty then acc
      else if room.presence_sensors.any (fun sensorId =>
          match statesGet env sensorId with
          | some st => st.state == "on"
          | none => false) then
        if acc.contains areaId then acc else acc ++ [areaId]
      else acc) []

/-- The room tracker's `async_get_rooms_with_tracked_people`: rooms returned
by `async_get_person_room` for every configured person with a truthy person
entity, deduplicated. -/
def asyncGetRoomsWithTrackedPeople (env : Env) (cfg : Config) : List String :=
  cfg.people.foldl (fun acc person =>
    match strTruthy person.person_entity with
    | none => acc
    | some personEntity =>
      match asyncGetPersonRoom env cfg personEntity with
      | some roomId => if acc.contains roomId then acc else acc ++ [roomId]
      | none => acc) []

/-- The room tracker's `async_get_occupied_rooms`: the union of presence
rooms (when `usePresence`) and tracked rooms (when `useTracking`). -/
def asyncGetOccupiedRooms (env : Env) (cfg : Config)
    (useTracking usePresence : Bool) : List String :=
  let occ := if usePresence then asyncGetRoomsWithPresence env cfg else []
  if useTracking then
    (asyncGetRoomsWithTrackedPeople env cfg).foldl
      (fun acc r => if acc.contains r then acc else acc ++ [r]) occ
  else occ

/-- The room tracker's `async_get_people_in_room`: person entities of every
configured person whose resolved room equals the given area, in
configuration order. -/
def asyncGetPeopleInRoom (env : Env) (cfg : Config) (areaId : String) :
    List String :=
  cfg.people.foldl (fun acc person =>
    match strTruthy person.person_entity with
    | none => acc
    | some personEntity =>
      if asyncGetPersonRoom env cfg personEntity == some areaId then
        acc ++ [personEntity]
      else acc) []

/-- The settings dictionary built by `_get_announcement_settings`. -/
structure Settings where
  conversation_entity : Option String
  language : String
  tts_platform : Option String
  tts_voice : Option String
  enhance_with_ai : Bool
  translate_announcement : Bool
  source : String
deriving DecidableEq, Repr

/-- The per-person settings dictionary, with the defaults `_get_announcement_settings`
applies (`language` defaults to english, AI enhancement on, translation off). -/
def personSettings (pc : PersonConfig) (src : String) : Settings :=
  { conversation_entity := pc.conversation_entity
    language := pc.language.getD "english"
    tts_platform := pc.tts_platform
    tts_voice := pc.tts_voice
    enhance_with_ai := pc.enhance_with_ai.getD true
    translate_announcement := pc.translate_announcement.getD false
    source := src }

/-- The group settings dictionary, with the same defaults read from the
`group` sub-configuration. -/
def groupSettings (cfg : Config) (src : String) : Settings :=
  { conversation_entity := cfg.group.group_conversation_entity
    language := cfg.group.group_language.getD "english"
    tts_platform := cfg.group.group_tts_platform
    tts_voice := cfg.group.group_tts_voice
    enhance_with_ai := cfg.group.group_enhance_with_ai.getD true
    translate_announcement := cfg.group.group_translate_announcement.getD false
    source := src }

/-- The announcer's `_get_announcement_settings`: (1) a truthy target person
whose config is found wins; (2) else a group room uses group settings; (3)
else a sole occupant whose config is found uses that person's settings; (4)
else group settings are the final fallback. -/
def getAnnouncementSettings (env : Env) (cfg : Config)
    (targetPerson : Option String) (peopleInRoom : List String)
    (isGroupRoom : Bool) : Settings :=
  let targetMatch : Option (PersonConfig × String) :=
    match strTruthy targetPerson with
    | some tp => (getPersonConfigByName env cfg tp).map (fun pc => (pc, "person:" ++ tp))
    | none => none
  match targetMatch with
  | some (pc, src) => personSettings pc src
  | none =>
    if isGroupRoom then groupSettings cfg "group"
    else
      match peopleInRoom with
      | [personEntity] =>
        match getPersonConfigByName env cfg personEntity with
        | some pc => personSettings pc ("person:" ++ personEntity)
        | none => groupSettings cfg "group(fallback)"
      | _ => groupSettings cfg "group(fallback)"

/-- Default group addressee from `const.py`. -/
def DEFAULT_GROUP_ADDRESSEE : String := "Everyone"

/-- The name-resolution step of `_personalize_message`: the target person's
friendly name (or the raw target name when no config or entity id is found),
else the group addressee for a group room, else the sole occupant's friendly
name (or raw entity). -/
def resolvePersonalizationName (env : Env) (cfg : Config)
    (targetPerson : Option String) (peopleInRoom : List String)
    (isGroupRoom : Bool) : Option String :=
  match strTruthy targetPerson with
  | some tp =>
    match getPersonConfigByName env cfg tp with
    | some pc =>
      match strTruthy pc.person_entity with
      | some entityId => some (get_person_friendly_name env entityId)
      | none => some tp
    | none => some tp
  | none =>
    if isGroupRoom then
      some (cfg.group.group_addressee.getD DEFAULT_GROUP_ADDRESSEE)
    else
      match peopleInRoom with
      | [personEntity] =>
        match getPersonConfigByName env cfg personEntity with
        | some pc =>
          match strTruthy pc.person_entity with
          | some entityId => some (get_person_friendly_name env entityId)
          | none => some personEntity
        | none => some personEntity
      | _ => none

/-- The placeholder tokens recognised by `_personalize_message`
(double-brace name, with and without inner spaces). -/
def namePlaceholderSpaced : String := "\x7b\x7b name \x7d\x7d"

/-- The placeholder token without inner spaces. -/
def namePlaceholderTight : String := "\x7b\x7bname\x7d\x7d"

/-- The announcer's `_personalize_message`: resolve a name; if the message
contains a placeholder token substitute the name (falling back to the group
addressee when no truthy name was resolved); else prepend the name followed
by a comma; else leave the message unchanged. -/
def personalizeMessage (env : Env) (cfg : Config) (message : String)
    (targetPerson : Option String) (peopleInRoom : List String)
    (isGroupRoom : Bool) : String :=
  let name := resolvePersonalizationName env cfg targetPerson peopleInRoom isGroupRoom
  if pyContains message namePlaceholderSpaced || pyContains message namePlaceholderTight then
    match strTruthy name with
    | some n =>
      pyReplace (pyReplace message namePlaceholderSpaced n) namePlaceholderTight n
    | none =>
      let groupAddressee := cfg.group.group_addressee.getD DEFAULT_GROUP_ADDRESSEE
      pyReplace (pyReplace message namePlaceholderSpaced groupAddressee)
        namePlaceholderTight groupAddressee
  else
    match strTruthy name with
    | some n => n ++ ", " ++ message
    | none => message

/-- Default translate prompt template from `const.py`. -/
def DEFAULT_PROMPT_TRANSLATE : String :=
  "Translate this announcement to \x7blanguage\x7d. Return only the translated announcement, no explanations or confirmations. Keep who it\x27s addressed to. Message: \"\x7bmessage\x7d\""

/-- Default enhance prompt template from `const.py`. -/
def DEFAULT_PROMPT_ENHANCE : String :=
  "Rephrase this announcement to be more engaging. Return only the new announcement, no explanations or confirmations. Keep who it\x27s addressed to. Message: \"\x7bmessage\x7d\""

/-- Default enhance-and-translate prompt template from `const.py`. -/
def DEFAULT_PROMPT_BOTH : String :=
  "Translate this announcement to \x7blanguage\x7d and make it more engaging. Return only the result, no explanations or confirmations. Keep who it\x27s addressed to. Message: \"\x7bmessage\x7d\""

/-- Python `template.format(language=..., message=...)` for the prompt
templates of this integration, which contain only those two fields. -/
def pyFormat2 (template language message : String) : String :=
  pyReplace (pyReplace template "\x7blanguage\x7d" language) "\x7bmessage\x7d" message

/-- Python `template.format(message=...)` for the enhance-only template. -/
def pyFormat1 (template message : String) : String :=
  pyReplace template "\x7bmessage\x7d" message

/-- The announcer's `_enhance_message`: pass the message through unchanged
when both flags are off or no truthy conversation entity is configured;
otherwise build the matching prompt, invoke the AI oracle, and return its
speech text on success — on a raised exception or a falsy/keyless response
the original message is returned. -/
def enhanceMessage (env : Env) (cfg : Config) (message : String)
    (conversationEntity : Option String) (language : String)
    (enhanceWithAI translateAnnouncement : Bool) : String :=
  if !enhanceWithAI && !translateAnnouncement then message
  else
    match strTruthy conversationEntity with
    | none => message
    | some _ =>
      let promptTranslate := cfg.prompt_translate.getD DEFAULT_PROMPT_TRANSLATE
      let promptEnhance := cfg.prompt_enhance.getD DEFAULT_PROMPT_ENHANCE
      let promptBoth := cfg.prompt_both.getD DEFAULT_PROMPT_BOTH
      let prompt :=
        if !enhanceWithAI && translateAnnouncement then
          pyFormat2 promptTranslate language message
        else if enhanceWithAI && !translateAnnouncement then
          pyFormat1 promptEnhance message
        else
          pyFormat2 promptBoth language message
      match env.ai prompt with
      | AIOutcome.raises => message
      | AIOutcome.returns truthyWithResponse speechPlainSpeech =>
        if truthyWithResponse then speechPlainSpeech.getD message else message

/-- A capability call or event issued by the dispatch pipeline, in order. -/
inductive Effect where
  | chimeCall (mediaPlayer url : String)
  | ttsCall (serviceEntity mediaPlayer message : String) (voice : Option String)
  | logbookCall (roomName message : String)
  | sentEvent (room message : String) (targetPerson : Option String)
  | blockedEvent (room reason : String) (targetPerson : Option String)
deriving DecidableEq, Repr

/-- The announcer's `_play_pre_announce`: issue the chime play call when a
truthy chime URL is configured; a failure of the call is caught, so the
pipeline continues either way. -/
def playPreAnnounce (cfg : Config) (mediaPlayer : String) : List Effect :=
  match strTruthy cfg.pre_announce_url with
  | none => []
  | some url => [Effect.chimeCall mediaPlayer url]

/-- The announcer's `_call_tts`: issue `tts.speak` with the TTS platform as
service entity when one is truthy (else the media player stays as the
entity), attaching the voice option when truthy; the boolean reports whether
the call raised, in which case `_call_tts` re-raises. -/
def callTts (env : Env) (mediaPlayer message : String)
    (ttsPlatform ttsVoice : Option String) : List Effect × Bool :=
  let serviceEntity :=
    match strTruthy ttsPlatform with
    | some p => p
    | none => mediaPlayer
  ([Effect.ttsCall serviceEntity mediaPlayer message (strTruthy ttsVoice)],
    env.ttsFails mediaPlayer)

/-- A resolved target room: the room's configuration dictionary, plus the
metadata key `target_person` that `_resolve_targets` may add.  The outer
`Option` of `target_person_key` records whether the key is present at all;
Python `dict.get("target_person", default)` returns the stored value (which
may itself be `None`) whenever the key is present. -/
structure RoomInfo where
  config : RoomConfig
  target_person_key : Option (Option String) := none
  targeted_people : List String := []
deriving DecidableEq, Repr

/-- The announcer's `_announce_to_room`: the effect list it issues together
with a flag reporting whether it re-raised a TTS failure.  A falsy media
player skips the room silently; a disabled room fires a blocked event; a
truthy target person that resolves to a disabled configured person fires a
blocked event; otherwise the message is composed (group detection, settings
selection, personalization, optional AI step), the chime is optionally
played, and the TTS call is issued followed by the optional activity-log
call and the sent event. -/
def announceToRoom (env : Env) (cfg : Config) (roomInfo : RoomInfo)
    (message : String) (targetPerson : Option String)
    (enhanceWithAI translateAnnouncement preAnnounceSound : Option Bool) :
    List Effect × Bool :=
  let areaId := roomInfo.config.area_id.getD ""
  let roomName := roomInfo.config.room_name.getD "Unknown"
  match strTruthy roomInfo.config.media_player with
  | none => ([], false)
  | some mediaPlayer =>
    if !isRoomEnabled env.registry areaId then
      ([Effect.blockedEvent roomName "room_disabled" none], false)
    else
      let personBlocked : Bool :=
        match strTruthy targetPerson with
        | some tp =>
          match getPersonConfigByName env cfg tp with
          | some pc => !isPersonEnabled env.registry pc.person_entity
          | none => false
        | none => false
      if personBlocked then
        ([Effect.blockedEvent roomName "person_disabled" targetPerson], false)
      else
        let peopleInRoom := asyncGetPeopleInRoom env cfg areaId
        let isGroupRoom : Bool := decide (peopleInRoom.length > 1)
        let settings := getAnnouncementSettings env cfg targetPerson peopleInRoom isGroupRoom
        let shouldEnhance := enhanceWithAI.getD settings.enhance_with_ai
        let shouldTranslate := translateAnnouncement.getD settings.translate_announcement
        let personalizedMessage :=
          personalizeMessage env cfg message targetPerson peopleInRoom isGroupRoom
        let finalMessage :=
          if shouldEnhance || shouldTranslate then
            enhanceMessage env cfg personalizedMessage settings.conversation_entity
              settings.language shouldEnhance shouldTranslate
          else personalizedMessage
        let shouldPreAnnounce := preAnnounceSound.getD (cfg.pre_announce_enabled.getD true)
        let chimeEffects := if shouldPreAnnounce then playPreAnnounce cfg mediaPlayer else []
        let ttsResult :=
          callTts env mediaPlayer finalMessage settings.tts_platform settings.tts_voice
        if ttsResult.2 then (chimeEffects ++ ttsResult.1, true)
        else
          let logEffects :=
            if cfg.log_to_activity.getD false then
              [Effect.logbookCall roomName finalMessage]
            else []
          (chimeEffects ++ ttsResult.1 ++ logEffects ++
            [Effect.sentEvent roomName finalMessage targetPerson], false)

/-- The per-room loop of `async_announce`: each room's target person is the
room's stored `target_person` metadata when present (even when stored as
`None`), else the request's target person; a room that re-raises a TTS
failure aborts the loop, so later rooms are not attempted. -/
def announceLoop (env : Env) (cfg : Config) (rooms : List RoomInfo)
    (message : String) (targetPerson : Option String)
    (enhanceWithAI translateAnnouncement preAnnounceSound : Option Bool) :
    List Effect × Bool :=
  match rooms with
  | [] => ([], false)
  | roomInfo :: rest =>
    let roomTargetPerson := roomInfo.target_person_key.getD targetPerson
    let result :=
      announceToRoom env cfg roomInfo message roomTargetPerson
        enhanceWithAI translateAnnouncement preAnnounceSound
    if result.2 then (result.1, true)
    else
      let restResult :=
        announceLoop env cfg rest message targetPerson
          enhanceWithAI translateAnnouncement preAnnounceSound
      (result.1 ++ restResult.1, restResult.2)

/-- The area branch of `_resolve_targets`: configured rooms whose lowercased
room name or area id equals the lowercased target area. -/
def matchArea (cfg : Config) (targetArea : String) : List RoomInfo :=
  (cfg.rooms.filter (fun room =>
    pyLower (room.room_name.getD "") == pyLower targetArea ||
    pyLower (room.area_id.getD "") == pyLower targetArea)).map
    (fun r => { config := r })

/-- Insert a person name into the `room_to_people` map, preserving the
insertion order of rooms and appending to an existing room's list. -/
def roomMapInsert (m : List (String × List String)) (roomId personName : String) :
    List (String × List String) :=
  if m.any (fun p => p.1 == roomId) then
    m.map (fun p => if p.1 == roomId then (p.1, p.2 ++ [personName]) else p)
  else m ++ [(roomId, [personName])]

/-- The per-person loop of `_resolve_targets`: each parsed name must resolve
to a configured person (else the whole resolution raises); when room
tracking is on, a person whose room is resolved and configured is recorded
in the `room_to_people` map. -/
def resolvePersonRooms (env : Env) (cfg : Config) (roomTracking : Bool) :
    List String → List (String × List String) →
    Except String (List (String × List String))
  | [], acc => Except.ok acc
  | personName :: rest, acc =>
    match getPersonConfigByName env cfg personName with
    | none =>
      Except.error
        ("Person \x27" ++ personName ++ "\x27 is not configured in Smart Announcements")
    | some personConfig =>
      let acc' :=
        if roomTracking then
          match asyncGetPersonRoomOpt env cfg personConfig.person_entity with
          | some roomId =>
            match getRoomConfig cfg roomId with
            | some _ => roomMapInsert acc roomId personName
            | none => acc
          | none => acc
        else acc
      resolvePersonRooms env cfg roomTracking rest acc'

/-- Turn the `room_to_people` map into the target-room list: each room's
config is copied and tagged with `target_person` metadata — the person's
name when exactly one targeted person resolved there, `None` when several
did (which triggers group detection downstream). -/
def buildTargetRooms (cfg : Config) (roomToPeople : List (String × List String)) :
    List RoomInfo :=
  roomToPeople.foldl (fun acc p =>
    match getRoomConfig cfg p.1 with
    | some roomConfig =>
      acc ++ [{ config := roomConfig
                target_person_key :=
                  some (if p.2.length == 1 then p.2.head? else none)
                targeted_people := p.2 }]
    | none => acc) []

/-- The final fallback of the person branch of `_resolve_targets`: scan the
parsed names in order; the first whose config resolves and whose person
entity's state is `home` makes the request fall back to the occupied rooms;
if nobody is home the result is `none` (resolution returns an empty list). -/
def fallbackHomeRooms (env : Env) (cfg : Config)
    (roomTracking presenceVerification : Bool) :
    List String → Option (List RoomInfo)
  | [] => none
  | personName :: rest =>
    match getPersonConfigByName env cfg personName with
    | some personConfig =>
      match (match personConfig.person_entity with
             | some pe => statesGet env pe
             | none => none) with
      | some personState =>
        if personState.state == "home" then
          let occupied :=
            asyncGetOccupiedRooms env cfg roomTracking presenceVerification
          some ((cfg.rooms.filter (fun r =>
            match r.area_id with
            | some a => occupied.contains a
            | none => false)).map (fun r => ({ config := r } : RoomInfo)))
        else fallbackHomeRooms env cfg roomTracking presenceVerification rest
      | none => fallbackHomeRooms env cfg roomTracking presenceVerification rest
    | none => fallbackHomeRooms env cfg roomTracking presenceVerification rest

/-- The announcer's `_resolve_targets`: service-parameter overrides default
to the config flags (room tracking on, presence verification off); a truthy
target area selects the matching rooms or raises; else a truthy target
person is comma-split, validated, and routed through room tracking with the
home fallback; else occupied rooms are targeted when tracking or presence is
enabled, and all rooms with a truthy media player otherwise. -/
def resolveTargets (env : Env) (cfg : Config)
    (targetPerson targetArea : Option String)
    (roomTracking presenceVerification : Option Bool) :
    Except String (List RoomInfo) :=
  let roomTracking := roomTracking.getD (cfg.room_tracking.getD true)
  let presenceVerification :=
    presenceVerification.getD (cfg.presence_verification.getD false)
  match strTruthy targetArea with
  | some ta =>
    let matchingRooms := matchArea cfg ta
    if matchingRooms.isEmpty then
      Except.error
        ("Room/area \x27" ++ ta ++ "\x27 is not configured in Smart Announcements")
    else Except.ok matchingRooms
  | none =>
    match strTruthy targetPerson with
    | some tp =>
      let targetPeople := (pySplitComma tp).map pyStrip
      match resolvePersonRooms env cfg roomTracking targetPeople [] with
      | Except.error e => Except.error e
      | Except.ok roomToPeople =>
        let targetRooms := buildTargetRooms cfg roomToPeople
        if !targetRooms.isEmpty then Except.ok targetRooms
        else
          match fallbackHomeRooms env cfg roomTracking presenceVerification targetPeople with
          | some fallbackRooms => Except.ok fallbackRooms
          | none => Except.ok []
    | none =>
      if roomTracking || presenceVerification then
        let occupied := asyncGetOccupiedRooms env cfg roomTracking presenceVerification
        Except.ok ((cfg.rooms.filter (fun r =>
          match r.area_id with
          | some a => occupied.contains a
          | none => false)).map (fun r => ({ config := r } : RoomInfo)))
      else
        Except.ok ((cfg.rooms.filter (fun r => (strTruthy r.media_player).isSome)).map
          (fun r => ({ config := r } : RoomInfo)))

/-- Marker for the exception that `_call_tts` re-raises out of
`async_announce`; the raised object is the host error, whose text the
embedding does not model. -/
def ttsRaisedMarker : String := "TTS call failed"

/-- The announcer's `async_announce`: resolve the target rooms (an error is
raised to the caller with no effect issued), raise the no-target error
matching the request shape when resolution is empty, and otherwise run the
per-room loop; the second component carries the raised error, if any. -/
def asyncAnnounce (env : Env) (cfg : Config) (message : String)
    (targetPerson targetArea : Option String)
    (enhanceWithAI translateAnnouncement preAnnounceSound
      roomTracking presenceVerification : Option Bool) :
    List Effect × Option String :=
  match resolveTargets env cfg targetPerson targetArea roomTracking presenceVerification with
  | Except.error e => ([], some e)
  | Except.ok targetRooms =>
    if targetRooms.isEmpty then
      ([], some (
        match strTruthy targetPerson with
        | some tp =>
          "Cannot announce to \x27" ++ tp ++
            "\x27: person(s) not home or have no configured room"
        | none =>
          match strTruthy targetArea with
          | some ta =>
            "Cannot announce to area \x27" ++ ta ++ "\x27: no matching rooms configured"
          | none => "No occupied rooms found for announcement"))
    else
      let result :=
        announceLoop env cfg targetRooms message targetPerson
          enhanceWithAI translateAnnouncement preAnnounceSound
      (result.1, if result.2 then some ttsRaisedMarker else none)

/-! Concrete environments and configurations used by the witnesses,
counterexamples, and the concrete conjuncts of the theorems below. -/

/-- Room with no media player, used for the silent-skip witness. -/
def roomC9 : RoomInfo :=
  { config := { area_id := some "kitchen", room_name := some "Kitchen" } }

/-- Empty environment for the settings-priority scenario. -/
def envC4 : Env := {}

/-- Two people with different languages and an english group, the
group-vs-individual scenario of the spec. -/
def cfgC4 : Config :=
  { people :=
      [{ person_entity := some "person.a", language := some "spanish" },
       { person_entity := some "person.b", language := some "french" }],
    group := { group_language := some "english" } }

/-- Empty environment for the personalization counterexample. -/
def envC5 : Env := {}

/-- Empty configuration for the personalization counterexample. -/
def cfgC5 : Config := {}

/-- Environment with a home person whose friendly name is Mike. -/
def envC5e : Env :=
  { states := [("person.mike",
      { state := "home", attributes := [("friendly_name", "Mike")] })] }

/-- Configuration with the single person Mike. -/
def cfgC5e : Config := { people := [{ person_entity := some "person.mike" }] }

/-- Registry that disables the kitchen room. -/
def envC7 : Env :=
  { registry := some { rooms := [("kitchen", false)] } }

/-- Configuration with one kitchen room and no media player. -/
def cfgC7 : Config :=
  { rooms := [{ area_id := some "kitchen", room_name := some "Kitchen" }] }

/-- The kitchen room info without a media player. -/
def roomC7 : RoomInfo :=
  { config := { area_id := some "kitchen", room_name := some "Kitchen" } }

/-- Registry that disables the kitchen room, for the amended room-gate
witness. -/
def envC7w : Env :=
  { registry := some { rooms := [("kitchen", false)] } }

/-- The kitchen room info with a media player configured. -/
def roomC7w : RoomInfo :=
  { config := { area_id := some "kitchen", room_name := some "Kitchen",
                media_player := some "media_player.one" } }

/-- Empty environment for the target-resolution error scenarios. -/
def envC8 : Env := {}

/-- Configuration with a single kitchen room and no configured people. -/
def cfgC8 : Config :=
  { rooms := [{ area_id := some "kitchen", room_name := some "Kitchen",
                media_player := some "media_player.one" }],
    room_tracking := some false, presence_verification := some false }

/-- Configuration with person Mike (own TTS platform and voice) and a
kitchen room. -/
def cfgC10 : Config :=
  { people := [{ person_entity := some "person.mike",
                 tts_platform := some "tts.mike", tts_voice := some "voice.mike" }],
    rooms := [{ area_id := some "kitchen", room_name := some "Kitchen",
                media_player := some "media_player.one" }] }

/-- Environment with Mike home, no registry. -/
def envC10 : Env :=
  { states := [("person.mike",
      { state := "home", attributes := [("friendly_name", "Mike")] })] }

/-- Environment with Mike home and Mike disabled in the registry. -/
def envC10g : Env :=
  { states := [("person.mike",
      { state := "home", attributes := [("friendly_name", "Mike")] })],
    registry := some { people := [(some "person.mike", false)] } }

/-- Environment whose TTS call fails for the first media player only. -/
def envC1 : Env := { ttsFails := fun mp => mp == "media_player.one" }

/-- Two rooms with media players, tracking and presence disabled, so a
target-less announcement broadcasts to both. -/
def cfgC1 : Config :=
  { rooms := [{ area_id := some "kitchen", room_name := some "Kitchen",
                media_player := some "media_player.one" },
              { area_id := some "lounge", room_name := some "Lounge",
                media_player := some "media_player.two" }],
    room_tracking := some false, presence_verification := some false }

/-- Lounge room whose TTS call succeeds under `envC1`. -/
def roomInfoA : RoomInfo :=
  { config := { area_id := some "lounge", room_name := some "Lounge",
                media_player := some "media_player.two" } }

/-- Kitchen room whose TTS call fails under `envC1`. -/
def roomInfoB : RoomInfo :=
  { config := { area_id := some "kitchen", room_name := some "Kitchen",
                media_player := some "media_player.one" } }

/-- Environment with a not-home person and two tracker entities, one
reporting an area via its state and one via its `area` attribute. -/
def envC2 : Env :=
  { states := [("person.bob", { state := "not_home", attributes := [] }),
               ("sensor.t1", { state := "kitchen", attributes := [] }),
               ("sensor.t2", { state := "unknown", attributes := [("area", "kitchen")] })],
    areas := [{ id := "kitchen", name := "Kitchen" }] }

/-- Environment with Mike home, a tracker reporting the kitchen, and an
active kitchen occupancy sensor. -/
def envC3 : Env :=
  { states := [("person.mike", { state := "home", attributes := [] }),
               ("sensor.tracker", { state := "kitchen", attributes := [] }),
               ("binary_sensor.k", { state := "on", attributes := [] })],
    areas := [{ id := "kitchen", name := "Kitchen" }] }

/-- Configuration with presence verification on, Mike tracked by
`sensor.tracker`, and a kitchen room with one presence sensor. -/
def cfgC3 : Config :=
  { people := [{ person_entity := some "person.mike",
                 room_tracking_entity := some "sensor.tracker" }],
    rooms := [{ area_id := some "kitchen", room_name := some "Kitchen",
                presence_sensors := ["binary_sensor.k"] }],
    presence_verification := some true }

/-- A non-empty string is truthy. -/
theorem strTruthy_some (s : String) (h : s ≠ "") : strTruthy (some s) = some s := by
  simp [strTruthy, h]

/-- The per-sensor check of `verifyPresence` holds exactly when the sensor
state reads `on`. -/
theorem sensorOn_iff (env : Env) (s : String) :
    ((match statesGet env s with
      | some st => st.state == "on"
      | none => false) = true) ↔ (statesGet env s).map HAState.state = some "on" := by
  cases h : statesGet env s <;> simp [h]

/-- Any unconfigured name among the parsed target people makes the person
loop of target resolution raise. -/
theorem resolvePersonRooms_error (env : Env) (cfg : Config) (rt : Bool) :
    ∀ (names : List String) (acc : List (String × List String)),
      (∃ n ∈ names, getPersonConfigByName env cfg n = none) →
      ∃ e, resolvePersonRooms env cfg rt names acc = Except.error e := by
  intro names
  induction names with
  | nil => intro acc h; simp at h
  | cons head tail ih =>
    intro acc h
    unfold resolvePersonRooms
    cases hc : getPersonConfigByName env cfg head with
    | none => exact ⟨_, rfl⟩
    | some pc =>
      rcases h with ⟨n, hmem, hn⟩
      rcases List.mem_cons.mp hmem with rfl | hmem'
      · exact absurd hc (by rw [hn]; simp)
      · exact ih _ ⟨n, hmem', hn⟩

/-- Claim C2: for every person, room resolution returns none when the
person's state is not `home`; otherwise the tracking signal is read in
order — the raw state value when it is not reserved and names a known area,
else the `area` attribute, else the `room` attribute, else none — and a
reserved state value is never treated as an area name even when the area
registry contains it. -/
theorem claim_C2_room_resolution_order (env : Env) (cfg : Config) :
    (∀ personEntity,
      (statesGet env personEntity).map HAState.state ≠ some "home" →
      asyncGetPersonRoom env cfg personEntity = none) ∧
    (∀ entityId st a,
      statesGet env entityId = some st →
      reservedStates.contains (pyLower st.state) = false →
      areaLookup env.areas (pyLower st.state) = some a →
      getAreaFromEntity env entityId = some a) ∧
    (∀ entityId st a,
      statesGet env entityId = some st →
      (reservedStates.contains (pyLower st.state) = true ∨
        areaLookup env.areas (pyLower st.state) = none) →
      attrAreaMatch env st "area" = some a →
      getAreaFromEntity env entityId = some a) ∧
    (∀ entityId st a,
      statesGet env entityId = some st →
      (reservedStates.contains (pyLower st.state) = true ∨
        areaLookup env.areas (pyLower st.state) = none) →
      attrAreaMatch env st "area" = none →
      attrAreaMatch env st "room" = some a →
      getAreaFromEntity env entityId = some a) ∧
    (∀ entityId st,
      statesGet env entityId = some st →
      (reservedStates.contains (pyLower st.state) = true ∨
        areaLookup env.areas (pyLower st.state) = none) →
      attrAreaMatch env st "area" = none →
      attrAreaMatch env st "room" = none →
      getAreaFromEntity env entityId = none) := by
  refine ⟨?_, ?_, ?_, ?_, ?_⟩
  · intro personEntity h
    unfold asyncGetPersonRoom
    repeat' split
    all_goals first | rfl | simp_all
  · intro entityId st a hst hres hlook
    unfold getAreaFromEntity
    rw [hst]
    simp only [hres, Bool.false_eq_true, if_false, hlook]
  · intro entityId st a hst hres hattr
    unfold getAreaFromEntity
    rw [hst]
    rcases hres with hres | hres
    · have hmem : pyLower st.state ∈ reservedStates := by simpa using hres
      simp [hmem, hattr]
    · simp [hres, hattr]
  · intro entityId st a hst hres harea hroom
    unfold getAreaFromEntity
    rw [hst]
    rcases hres with hres | hres
    · have hmem : pyLower st.state ∈ reservedStates := by simpa using hres
      simp [hmem, harea, hroom]
    · simp [hres, harea, hroom]
  · intro entityId st hst hres harea hroom
    unfold getAreaFromEntity
    rw [hst]
    rcases hres with hres | hres
    · have hmem : pyLower st.state ∈ reservedStates := by simpa using hres
      simp [hmem, harea, hroom]
    · simp [hres, harea, hroom]

/-- Witness for claim C2: a not-home person resolves to no room; a tracker
whose state names the kitchen resolves to it; a tracker with reserved state
but a kitchen `area` attribute also resolves to it. -/
theorem claim_C2_room_resolution_order_witness :
    asyncGetPersonRoom envC2 {} "person.bob" = none ∧
    getAreaFromEntity envC2 "sensor.t1" = some "kitchen" ∧
    getAreaFromEntity envC2 "sensor.t2" = some "kitchen" :=
  ⟨(claim_C2_room_resolution_order envC2 {}).1 "person.bob" (by decide),
   (claim_C2_room_resolution_order envC2 {}).2.1 "sensor.t1"
     { state := "kitchen", attributes := [] } "kitchen" rfl (by decide) rfl,
   (claim_C2_room_resolution_order envC2 {}).2.2.1 "sensor.t2"
     { state := "unknown", attributes := [("area", "kitchen")] } "kitchen" rfl
     (Or.inl (by decide)) rfl⟩

/-- Claim C3: verify-presence holds exactly when the area has no room
configuration, or no configured sensors, or some configured sensor reads
`on`; and with presence verification active every room the resolver returns
satisfies verify-presence, so the verification gate dominates the tracking
signal. -/
theorem claim_C3_verify_presence_gate (env : Env) (cfg : Config) :
    (∀ areaId,
      verifyPresence env cfg areaId = true ↔
        (cfg.rooms.find? (fun r => r.area_id == some areaId) = none ∨
         ∃ rc, cfg.rooms.find? (fun r => r.area_id == some areaId) = some rc ∧
           (rc.presence_sensors = [] ∨
            ∃ s ∈ rc.presence_sensors, (statesGet env s).map HAState.state = some "on"))) ∧
    (∀ personEntity areaId,
      cfg.presence_verification.getD false = true →
      asyncGetPersonRoom env cfg personEntity = some areaId →
      verifyPresence env cfg areaId = true) := by
  constructor
  · intro areaId
    unfold verifyPresence
    cases hfind : cfg.rooms.find? (fun r => r.area_id == some areaId) with
    | none => simp
    | some rc =>
      simp only [hfind, Option.some.injEq, reduceCtorEq, false_or]
      by_cases hempty : rc.presence_sensors.isEmpty
      · simp [hempty, List.isEmpty_iff.mp hempty]
      · rw [if_neg hempty]
        simp only [List.any_eq_true, List.isEmpty_iff] at hempty ⊢
        constructor
        · rintro ⟨s, hs, hon⟩
          exact ⟨rc, rfl, Or.inr ⟨s, hs, (sensorOn_iff env s).mp hon⟩⟩
        · rintro ⟨rc', hrc', h⟩
          cases hrc'
          rcases h with h | ⟨s, hs, hon⟩
          · exact absurd h hempty
          · exact ⟨s, hs, (sensorOn_iff env s).mpr hon⟩
  · intro personEntity areaId hflag h
    unfold asyncGetPersonRoom at h
    repeat' split at h
    all_goals simp_all

/-- Witness for claim C3: with presence verification on, Mike resolves to
the kitchen and the kitchen passes verify-presence. -/
theorem claim_C3_verify_presence_gate_witness :
    cfgC3.presence_verification.getD false = true ∧
    asyncGetPersonRoom envC3 cfgC3 "person.mike" = some "kitchen" ∧
    verifyPresence envC3 cfgC3 "kitchen" = true :=
  ⟨rfl, rfl,
   (claim_C3_verify_presence_gate envC3 cfgC3).2 "person.mike" "kitchen" rfl rfl⟩

/-- Claim C4: settings selection priority — an explicit target person whose
config resolves wins; else a group room uses group settings; else a sole
occupant whose config resolves uses that person's settings; else group
settings are the fallback; and in the concrete two-person scenario
(spanish and french occupants, english group) the selected language is
english. -/
theorem claim_C4_settings_priority (env : Env) (cfg : Config) :
    (∀ tp pc pir ig, tp ≠ "" →
      getPersonConfigByName env cfg tp = some pc →
      getAnnouncementSettings env cfg (some tp) pir ig =
        personSettings pc ("person:" ++ tp)) ∧
    (∀ pir, 2 ≤ pir.length →
      getAnnouncementSettings env cfg none pir (decide (pir.length > 1)) =
        groupSettings cfg "group") ∧
    (∀ pe pc, getPersonConfigByName env cfg pe = some pc →
      getAnnouncementSettings env cfg none [pe] (decide (([pe] : List String).length > 1)) =
        personSettings pc ("person:" ++ pe)) ∧
    (∀ pe, getPersonConfigByName env cfg pe = none →
      getAnnouncementSettings env cfg none [pe] (decide (([pe] : List String).length > 1)) =
        groupSettings cfg "group(fallback)") ∧
    (getAnnouncementSettings env cfg none [] (decide (([] : List String).length > 1)) =
      groupSettings cfg "group(fallback)") ∧
    ((getAnnouncementSettings envC4 cfgC4 none ["person.a", "person.b"]
        (decide ((["person.a", "person.b"] : List String).length > 1))).language =
      "english") := by
  refine ⟨?_, ?_, ?_, ?_, rfl, rfl⟩
  · intro tp pc pir ig htp hpc
    unfold getAnnouncementSettings
    rw [strTruthy_some tp htp]
    simp [hpc]
  · intro pir hlen
    have hg : decide (pir.length > 1) = true := decide_eq_true (by omega)
    rw [hg]
    unfold getAnnouncementSettings
    simp [strTruthy]
  · intro pe pc hpc
    unfold getAnnouncementSettings
    simp [strTruthy, hpc]
  · intro pe hpc
    unfold getAnnouncementSettings
    simp [strTruthy, hpc]

/-- Witness for claim C4: an explicit target person resolves to that
person's own settings. -/
theorem claim_C4_settings_priority_witness :
    getAnnouncementSettings envC4 cfgC4 (some "person.a") [] false =
      personSettings { person_entity := some "person.a", language := some "spanish" }
        ("person:" ++ "person.a") :=
  (claim_C4_settings_priority envC4 cfgC4).1 "person.a"
    { person_entity := some "person.a", language := some "spanish" } [] false
    (by decide) rfl

/-- Claim C6: message enhancement never propagates a failure — with both
flags off, or no truthy conversation entity, or an AI call that raises, the
pre-AI message is returned unchanged. -/
theorem claim_C6_enhancement_never_fails (env : Env) (cfg : Config) (message : String)
    (conversationEntity : Option String) (language : String) :
    (enhanceMessage env cfg message conversationEntity language false false = message) ∧
    (∀ e t, strTruthy conversationEntity = none →
      enhanceMessage env cfg message conversationEntity language e t = message) ∧
    (∀ e t, (∀ prompt, env.ai prompt = AIOutcome.raises) →
      enhanceMessage env cfg message conversationEntity language e t = message) := by
  refine ⟨by simp [enhanceMessage], ?_, ?_⟩
  · intro e t h
    unfold enhanceMessage
    split
    · rfl
    · rw [h]
  · intro e t h
    unfold enhanceMessage
    split
    · rfl
    · cases hc : strTruthy conversationEntity with
      | none => rfl
      | some ce => simp [h]

/-- Witness for claim C6: with a configured agent whose call raises, the
message passes through unchanged. -/
theorem claim_C6_enhancement_never_fails_witness :
    enhanceMessage {} {} "hi" (some "conversation.agent") "english" true true = "hi" :=
  (claim_C6_enhancement_never_fails {} {} "hi" (some "conversation.agent")
    "english").2.2 true true (fun _ => rfl)

/-- Claim C9: a room whose media player reference is unset or empty issues
no capability call and no event — the dispatcher returns with an empty
effect list and no raised error. -/
theorem claim_C9_no_media_player_skips_silently (env : Env) (cfg : Config)
    (roomInfo : RoomInfo) (message : String) (targetPerson : Option String)
    (e t p : Option Bool)
    (h : strTruthy roomInfo.config.media_player = none) :
    announceToRoom env cfg roomInfo message targetPerson e t p = ([], false) := by
  unfold announceToRoom
  rw [h]

/-- Witness for claim C9: a kitchen room with no media player is skipped
with no effects. -/
theorem claim_C9_no_media_player_skips_silently_witness :
    strTruthy roomC9.config.media_player = none ∧
    announceToRoom {} {} roomC9 "hi" none none none none = ([], false) :=
  ⟨rfl, claim_C9_no_media_player_skips_silently {} {} roomC9 "hi" none none none none rfl⟩

/-- Counterexample to claim C1: a target-less request resolves to two rooms,
the TTS call for the first room fails, and the effect trace shows the second
room was never attempted (no chime, TTS, or event for it) — so a TTS
delivery failure does prevent the remaining rooms. -/
theorem claim_C1_counterexample :
    resolveTargets envC1 cfgC1 none none none none =
      Except.ok
        [{ config := { area_id := some "kitchen", room_name := some "Kitchen",
                       media_player := some "media_player.one" } },
         { config := { area_id := some "lounge", room_name := some "Lounge",
                       media_player := some "media_player.two" } }] ∧
    asyncAnnounce envC1 cfgC1 "hi" none none (some false) (some false) (some false)
        none none =
      ([Effect.ttsCall "media_player.one" "media_player.one" "hi" none],
        some ttsRaisedMarker) :=
  ⟨rfl, rfl⟩

/-- Claim C1 amended: a TTS delivery failure in one room re-raises out of
the dispatch loop — rooms before the failing room are fully dispatched and
unaffected, but the rooms after it in the resolved list are not attempted. -/
theorem claim_C1_amended_tts_failure_aborts_rest (env : Env) (cfg : Config)
    (msg : String) (tp : Option String) (e t p : Option Bool) :
    ∀ (pre : List RoomInfo) (r : RoomInfo) (post : List RoomInfo),
      (∀ ri ∈ pre,
        (announceToRoom env cfg ri msg (ri.target_person_key.getD tp) e t p).2 = false) →
      (announceToRoom env cfg r msg (r.target_person_key.getD tp) e t p).2 = true →
      announceLoop env cfg (pre ++ r :: post) msg tp e t p =
        ((pre.map (fun ri =>
            (announceToRoom env cfg ri msg (ri.target_person_key.getD tp) e t p).1)).flatten ++
          (announceToRoom env cfg r msg (r.target_person_key.getD tp) e t p).1, true) := by
  intro pre
  induction pre with
  | nil =>
    intro r post _ h2
    simp only [List.nil_append, announceLoop, h2, if_true, List.map_nil,
      List.flatten_nil]
  | cons head tail ih =>
    intro r post h1 h2
    have hhead := h1 head (List.mem_cons_self head tail)
    simp only [List.cons_append, announceLoop, hhead, Bool.false_eq_true, if_false,
      List.append_eq]
    rw [ih r post (fun ri hri => h1 ri (List.mem_cons_of_mem head hri)) h2]
    simp [List.append_assoc]

/-- Witness for the amended claim C1: the lounge room is dispatched, the
kitchen TTS fails, and the loop ends raised with exactly those effects. -/
theorem claim_C1_amended_tts_failure_aborts_rest_witness :
    announceLoop envC1 cfgC1 ([roomInfoA] ++ roomInfoB :: []) "hi" none
        (some false) (some false) (some false) =
      (([roomInfoA].map (fun ri =>
          (announceToRoom envC1 cfgC1 ri "hi" (ri.target_person_key.getD none)
            (some false) (some false) (some false)).1)).flatten ++
        (announceToRoom envC1 cfgC1 roomInfoB "hi"
          (roomInfoB.target_person_key.getD none)
          (some false) (some false) (some false)).1, true) :=
  claim_C1_amended_tts_failure_aborts_rest envC1 cfgC1 "hi" none
    (some false) (some false) (some false)
    [roomInfoA] roomInfoB [] (by decide) (by decide)

/-- Counterexample to claim C5: with no target person, an empty room and no
group, no name at all is resolved, yet a message containing the placeholder
token is not left unmodified — the default group addressee is substituted. -/
theorem claim_C5_counterexample :
    resolvePersonalizationName envC5 cfgC5 none [] false = none ∧
    personalizeMessage envC5 cfgC5 "\x7b\x7b name \x7d\x7d, dinner is ready" none [] false =
      "Everyone, dinner is ready" ∧
    "Everyone, dinner is ready" ≠ "\x7b\x7b name \x7d\x7d, dinner is ready" :=
  ⟨rfl, rfl, by decide⟩

/-- Claim C5 amended: with a placeholder token in the message, the resolved
name is substituted when one is resolved and the group addressee (default
Everyone) is substituted otherwise; without a placeholder a resolved name is
prepended with a comma; with neither placeholder nor name the message is
unmodified; and the round-trip examples for target Mike hold. -/
theorem claim_C5_amended_personalization (env : Env) (cfg : Config) (message : String)
    (targetPerson : Option String) (pir : List String) (ig : Bool) :
    (∀ n, (pyContains message namePlaceholderSpaced ||
        pyContains message namePlaceholderTight) = true →
      strTruthy (resolvePersonalizationName env cfg targetPerson pir ig) = some n →
      personalizeMessage env cfg message targetPerson pir ig =
        pyReplace (pyReplace message namePlaceholderSpaced n) namePlaceholderTight n) ∧
    ((pyContains message namePlaceholderSpaced ||
        pyContains message namePlaceholderTight) = true →
      strTruthy (resolvePersonalizationName env cfg targetPerson pir ig) = none →
      personalizeMessage env cfg message targetPerson pir ig =
        pyReplace
          (pyReplace message namePlaceholderSpaced
            (cfg.group.group_addressee.getD DEFAULT_GROUP_ADDRESSEE))
          namePlaceholderTight
          (cfg.group.group_addressee.getD DEFAULT_GROUP_ADDRESSEE)) ∧
    (∀ n, (pyContains message namePlaceholderSpaced ||
        pyContains message namePlaceholderTight) = false →
      strTruthy (resolvePersonalizationName env cfg targetPerson pir ig) = some n →
      personalizeMessage env cfg message targetPerson pir ig = n ++ ", " ++ message) ∧
    ((pyContains message namePlaceholderSpaced ||
        pyContains message namePlaceholderTight) = false →
      strTruthy (resolvePersonalizationName env cfg targetPerson pir ig) = none →
      personalizeMessage env cfg message targetPerson pir ig = message) ∧
    (personalizeMessage envC5e cfgC5e "\x7b\x7b name \x7d\x7d, dinner is ready"
        (some "Mike") [] false = "Mike, dinner is ready") ∧
    (personalizeMessage envC5e cfgC5e "dinner is ready" (some "Mike") [] false =
      "Mike, dinner is ready") := by
  refine ⟨?_, ?_, ?_, ?_, rfl, rfl⟩
  · intro n hph hname
    simp only [personalizeMessage, hph, hname, if_true]
  · intro hph hname
    simp only [personalizeMessage, hph, hname, if_true]
  · intro n hph hname
    simp only [personalizeMessage, hph, hname, Bool.false_eq_true, if_false]
  · intro hph hname
    simp only [personalizeMessage, hph, hname, Bool.false_eq_true, if_false]

/-- Witness for the amended claim C5: a placeholder message with target Mike
substitutes the resolved friendly name. -/
theorem claim_C5_amended_personalization_witness :
    personalizeMessage envC5e cfgC5e "\x7b\x7b name \x7d\x7d, time to eat"
        (some "Mike") [] false =
      pyReplace (pyReplace "\x7b\x7b name \x7d\x7d, time to eat"
        namePlaceholderSpaced "Mike") namePlaceholderTight "Mike" :=
  (claim_C5_amended_personalization envC5e cfgC5e "\x7b\x7b name \x7d\x7d, time to eat"
    (some "Mike") [] false).1 "Mike" (by decide) rfl

/-- Counterexample to claim C7: a disabled room with no configured media
player is skipped before the room gate, so no blocked event fires even
though the room's enabled flag is false. -/
theorem claim_C7_counterexample :
    isRoomEnabled envC7.registry "kitchen" = false ∧
    announceToRoom envC7 cfgC7 roomC7 "hi" none none none none = ([], false) :=
  ⟨rfl, rfl⟩

/-- Claim C7 amended: for a room with a truthy media player whose enabled
flag is false, the dispatcher issues exactly one blocked event with reason
room disabled and nothing else (no chime, no TTS), for any target person —
the room gate precedes the person gate; and with no recorded state rooms and
persons default to enabled. -/
theorem claim_C7_amended_room_gate :
    (∀ (env : Env) (cfg : Config) (ri : RoomInfo) (msg : String)
        (tp : Option String) (e t p : Option Bool) (mp : String),
      strTruthy ri.config.media_player = some mp →
      isRoomEnabled env.registry (ri.config.area_id.getD "") = false →
      announceToRoom env cfg ri msg tp e t p =
        ([Effect.blockedEvent (ri.config.room_name.getD "Unknown") "room_disabled" none],
          false)) ∧
    (∀ areaId, isRoomEnabled none areaId = true) ∧
    (∀ reg areaId, reg.rooms.find? (fun pr => pr.1 == areaId) = none →
      isRoomEnabled (some reg) areaId = true) ∧
    (∀ pe, isPersonEnabled none pe = true) ∧
    (∀ reg pe, reg.people.find? (fun pr => pr.1 == pe) = none →
      isPersonEnabled (some reg) pe = true) := by
  refine ⟨?_, fun _ => rfl, ?_, fun _ => rfl, ?_⟩
  · intro env cfg ri msg tp e t p mp hmp hdis
    unfold announceToRoom
    rw [hmp]
    simp only [hdis, Bool.not_false, if_true]
  · intro reg areaId hfind
    simp [isRoomEnabled, hfind]
  · intro reg pe hfind
    simp [isPersonEnabled, hfind]

/-- Witness for the amended claim C7: a disabled kitchen with a media player
fires exactly the room-disabled blocked event, even with a target person. -/
theorem claim_C7_amended_room_gate_witness :
    announceToRoom envC7w cfgC7 roomC7w "hi" (some "Mike") none none none =
      ([Effect.blockedEvent "Kitchen" "room_disabled" none], false) :=
  claim_C7_amended_room_gate.1 envC7w cfgC7 roomC7w "hi" (some "Mike")
    none none none "media_player.one" rfl rfl

/-- Counterexample to claim C8: with a valid target area and an unconfigured
target person, announce does not raise — the room is dispatched, a TTS call
and sent event are issued — so an unresolvable person name is not fatal when
a target area is supplied. -/
theorem claim_C8_counterexample :
    getPersonConfigByName envC8 cfgC8 "ghost" = none ∧
    asyncAnnounce envC8 cfgC8 "hi" (some "ghost") (some "kitchen")
        (some false) (some false) (some false) none none =
      ([Effect.ttsCall "media_player.one" "media_player.one" "ghost, hi" none,
        Effect.sentEvent "Kitchen" "ghost, hi" (some "ghost")], none) :=
  ⟨rfl, rfl⟩

/-- Claim C8 amended: an unknown target area raises immediately with no
effect issued; and when no truthy target area is supplied, any unconfigured
name in the comma-split person list makes announce raise immediately with no
effect issued. -/
theorem claim_C8_amended_config_errors_fatal (env : Env) (cfg : Config) (msg : String)
    (e t p rt pv : Option Bool) :
    (∀ (tp : Option String) (ta : String), ta ≠ "" →
      matchArea cfg ta = [] →
      asyncAnnounce env cfg msg tp (some ta) e t p rt pv =
        ([], some ("Room/area \x27" ++ ta ++
          "\x27 is not configured in Smart Announcements"))) ∧
    (∀ (tp : String) (ta : Option String), strTruthy ta = none → tp ≠ "" →
      (∃ n ∈ (pySplitComma tp).map pyStrip, getPersonConfigByName env cfg n = none) →
      ∃ err, asyncAnnounce env cfg msg (some tp) ta e t p rt pv = ([], some err)) := by
  constructor
  · intro tp ta hta hmatch
    unfold asyncAnnounce resolveTargets
    rw [strTruthy_some ta hta]
    simp [hmatch]
  · intro tp ta hta htp hbad
    obtain ⟨err, herr⟩ :=
      resolvePersonRooms_error env cfg (rt.getD (cfg.room_tracking.getD true))
        ((pySplitComma tp).map pyStrip) [] hbad
    refine ⟨err, ?_⟩
    unfold asyncAnnounce resolveTargets
    rw [hta, strTruthy_some tp htp]
    simp [herr]

/-- Witness for the amended claim C8: an unknown area raises the
unconfigured-area error with no effects, and an unconfigured person with no
target area raises with no effects. -/
theorem claim_C8_amended_config_errors_fatal_witness :
    asyncAnnounce envC8 cfgC8 "hi" none (some "attic") none none none none none =
      ([], some ("Room/area \x27" ++ "attic" ++
        "\x27 is not configured in Smart Announcements")) ∧
    (∃ err, asyncAnnounce envC8 cfgC8 "hi" (some "ghost") none none none none
        none none = ([], some err)) :=
  ⟨(claim_C8_amended_config_errors_fatal envC8 cfgC8 "hi" none none none none none).1
     none "attic" (by decide) rfl,
   (claim_C8_amended_config_errors_fatal envC8 cfgC8 "hi" none none none none none).2
     "ghost" none rfl (by decide) ⟨"ghost", by decide⟩⟩

/-- Claim C10: with a truthy target area, target resolution is independent
of the target person (the person is neither located nor validated); rooms
from the area match carry no target-person metadata, so the loop passes the
request's target person to each room; dispatch equals the loop over the
area-matched rooms with that target person; and concretely, with both a
target area and a target person, the person gate fires a person-disabled
block when that person is disabled, while with the person enabled the
person's own TTS settings and friendly name drive the delivered call. -/
theorem claim_C10_area_dominates_person (env : Env) (cfg : Config) :
    (∀ (tp tp' : Option String) (ta : String) (rt pv : Option Bool), ta ≠ "" →
      resolveTargets env cfg tp (some ta) rt pv =
        resolveTargets env cfg tp' (some ta) rt pv) ∧
    (∀ (ta : String) (ri : RoomInfo), ri ∈ matchArea cfg ta →
      ri.target_person_key = none) ∧
    (∀ (msg : String) (tp : Option String) (ta : String) (e t p rt pv : Option Bool),
      ta ≠ "" → matchArea cfg ta ≠ [] →
      asyncAnnounce env cfg msg tp (some ta) e t p rt pv =
        ((announceLoop env cfg (matchArea cfg ta) msg tp e t p).1,
          if (announceLoop env cfg (matchArea cfg ta) msg tp e t p).2 then
            some ttsRaisedMarker
          else none)) ∧
    (asyncAnnounce envC10g cfgC10 "hi" (some "person.mike") (some "kitchen")
        (some false) (some false) (some false) none none =
      ([Effect.blockedEvent "Kitchen" "person_disabled" (some "person.mike")], none)) ∧
    (asyncAnnounce envC10 cfgC10 "hi" (some "person.mike") (some "kitchen")
        (some false) (some false) (some false) none none =
      ([Effect.ttsCall "tts.mike" "media_player.one" "Mike, hi" (some "voice.mike"),
        Effect.sentEvent "Kitchen" "Mike, hi" (some "person.mike")], none)) := by
  refine ⟨?_, ?_, ?_, rfl, rfl⟩
  · intro tp tp' ta rt pv hta
    unfold resolveTargets
    rw [strTruthy_some ta hta]
  · intro ta ri hri
    unfold matchArea at hri
    obtain ⟨r, _, hr⟩ := List.mem_map.mp hri
    rw [← hr]
  · intro msg tp ta e t p rt pv hta hne
    unfold asyncAnnounce resolveTargets
    rw [strTruthy_some ta hta]
    have hempty : (matchArea cfg ta).isEmpty = false := by
      cases hm : matchArea cfg ta with
      | nil => exact absurd hm hne
      | cons a l => rfl
    simp [hempty, List.isEmpty_iff]

/-- Witness for claim C10: resolution for the kitchen area ignores an
unknown target person, and dispatch with both targets equals the loop over
the matched rooms carrying the target person. -/
theorem claim_C10_area_dominates_person_witness :
    resolveTargets envC10 cfgC10 (some "ghost") (some "kitchen") none none =
      resolveTargets envC10 cfgC10 none (some "kitchen") none none ∧
    asyncAnnounce envC10 cfgC10 "hi" (some "person.mike") (some "kitchen")
        (some false) (some false) (some false) none none =
      ((announceLoop envC10 cfgC10 (matchArea cfgC10 "kitchen") "hi"
          (some "person.mike") (some false) (some false) (some false)).1,
        if (announceLoop envC10 cfgC10 (matchArea cfgC10 "kitchen") "hi"
            (some "person.mike") (some false) (some false) (some false)).2 then
          some ttsRaisedMarker
        else none) :=
  ⟨(claim_C10_area_dominates_person envC10 cfgC10).1 (some "ghost") none "kitchen"
     none none (by decide),
   (claim_C10_area_dominates_person envC10 cfgC10).2.2.1 "hi" (some "person.mike")
     "kitchen" (some false) (some false) (some false) none none
     (by decide) (by decide)⟩

end SmartAnnouncements
